import Mathlib

/-!
Verification development for the polymarket-kalshi-monitor repository.

Each definition is a shallow embedding of a Python function from the
repository's source; the file/line of the source is named in the doc
comment.  Money amounts and prices are modelled as exact rationals
(the Python source uses IEEE floats; none of the verified properties
depends on rounding).  External-library calls (the fuzzywuzzy scorers,
the RSA primitive, the system clock, HTTP transport) are modelled as
explicit parameters or explicit input sequences.
-/

/- ===================================================================
   Kalshi client: retry loop
   src/kalshi_client.py, KalshiClient._request_with_retry (lines 67-89)
   =================================================================== -/

/-- One HTTP response as seen by `_request_with_retry`:
`ok payload` is a 200 response carrying a JSON payload (abstracted to a
natural number), `rateLimited` is a 429 response, and `otherStatus s`
is any other non-200 status `s`. -/
inductive RetryResponse where
  | ok (payload : Nat)
  | rateLimited
  | otherStatus (status : Nat)
deriving DecidableEq

/-- The body of the `for attempt in range(max_retries)` loop of
`_request_with_retry`.  `responses n` is the response the server gives
to the (n+1)-st request; `fuel` is the number of loop iterations left
(initially `maxRetries`); `waitedMs` accumulates the milliseconds
slept so far.  Mirrors lines 70-89: a 200 returns its payload, a 429
sleeps `1.5 * 2 ^ attempt` seconds (here in ms) and retries unless
this was the last attempt, and every other status returns `none`
immediately (the caller turns `none` into an empty result). -/
def retryFor (responses : Nat → RetryResponse) (maxRetries fuel attempt waitedMs : Nat) :
    Option Nat × Nat :=
  match fuel with
  | 0 => (none, waitedMs)
  | fuel' + 1 =>
    match responses attempt with
    | .ok payload => (some payload, waitedMs)
    | .rateLimited =>
      if attempt < maxRetries - 1 then
        retryFor responses maxRetries fuel' (attempt + 1) (waitedMs + 1500 * 2 ^ attempt)
      else (none, waitedMs)
    | .otherStatus _ => (none, waitedMs)

/-- `_request_with_retry` (lines 67-89): runs the retry loop from
attempt 0.  Returns the payload (if any) and the total time slept in
milliseconds.  The source's default is `max_retries = 3`. -/
def requestWithRetry (responses : Nat → RetryResponse) (maxRetries : Nat) :
    Option Nat × Nat :=
  retryFor responses maxRetries maxRetries 0 0

/- ===================================================================
   Kalshi client: request signing
   src/kalshi_client.py, _sign_request (lines 42-53) and
   _get_headers (lines 55-65)
   =================================================================== -/

/-- The message string signed by `_sign_request` (line 45):
`f"{timestamp}{method}{path}{body}"`, with the millisecond timestamp
rendered in decimal. -/
def signedMessage (timestampMs : Nat) (method path body : String) : String :=
  toString timestampMs ++ method ++ path ++ body

/-- `_sign_request` (lines 42-53).  The RSA-PKCS#1-v1.5/SHA-256
signing primitive together with base64 encoding is an external
library call, abstracted as the parameter `sign`; `timestampMs` is
the value of `int(time.time() * 1000)` sampled at line 44, inside
`_sign_request` itself. -/
def signRequest (sign : String → String) (timestampMs : Nat) (method path body : String) :
    String :=
  sign (signedMessage timestampMs method path body)

/-- The headers built by `_get_headers` (lines 60-65). -/
structure KalshiHeaders where
  accessKey : String
  accessSignature : String
  accessTimestamp : String
deriving DecidableEq

/-- `_get_headers` (lines 55-65).  The source samples the clock twice:
once at line 57 for the ACCESS-TIMESTAMP header (`tHeaderMs`) and
once more inside `_sign_request` at line 44 for the signed message
(`tSignMs`).  The two samples are distinct calls of
`int(time.time() * 1000)` and need not return the same value. -/
def getHeaders (sign : String → String) (apiKey : String) (tHeaderMs tSignMs : Nat)
    (method path body : String) : KalshiHeaders :=
  { accessKey := apiKey
    accessSignature := signRequest sign tSignMs method path body
    accessTimestamp := toString tHeaderMs }

/- ===================================================================
   Arbitrage detector: ask extraction
   src/arbitrage_detector.py, _get_poly_asks (192-207) and
   _get_kalshi_asks (209-227)
   =================================================================== -/

/-- One outcome's entry in a Polymarket CLOB orderbook:
`{bid: ..., ask: ...}` with optional fields. -/
structure PolyOutcome where
  bid : Option ℚ
  ask : Option ℚ
deriving DecidableEq

/-- A Polymarket orderbook as consumed by `_get_poly_asks`: the
`Yes`/`No` entries of the outcome dictionary (a missing or empty
entry is `none`, matching Python dict truthiness). -/
structure PolyBook where
  yes : Option PolyOutcome
  no : Option PolyOutcome
deriving DecidableEq

/-- `_get_poly_asks` (lines 192-207): `none` input models the falsy
(empty) orderbook dict checked at line 194; a missing `Yes` or `No`
entry yields `(none, none)` (line 201); otherwise the two `ask`
fields are returned as-is. -/
def getPolyAsks : Option PolyBook → Option ℚ × Option ℚ
  | none => (none, none)
  | some ob =>
    match ob.yes, ob.no with
    | some yesData, some noData => (yesData.ask, noData.ask)
    | _, _ => (none, none)

/-- A Kalshi orderbook as consumed by `_get_kalshi_asks`: two bid
ladders `yes:[[cents,size],...]`, `no:[[cents,size],...]` with prices
in integer cents.  The falsy empty dict of line 211 coincides with
both ladders empty. -/
structure KalshiBook where
  yes : List (ℤ × ℤ)
  no : List (ℤ × ℤ)
deriving DecidableEq

/-- `_get_kalshi_asks` (lines 209-227): if either ladder is empty the
result is `(none, none)` (line 217); otherwise the best bid of a side
is the price of the **last** ladder element and the ask of side X is
`(100 - best_bid_of_opposite_side) / 100` (lines 221-225). -/
def getKalshiAsks (ob : KalshiBook) : Option ℚ × Option ℚ :=
  match ob.yes.getLast?, ob.no.getLast? with
  | some bestYesBid, some bestNoBid =>
    (some ((100 - (bestNoBid.1 : ℚ)) / 100), some ((100 - (bestYesBid.1 : ℚ)) / 100))
  | _, _ => (none, none)

/- ===================================================================
   Arbitrage detector: pairwise detection
   src/arbitrage_detector.py, detect_arbitrage_with_orderbooks (97-190)
   =================================================================== -/

/-- An `ArbitrageOpportunity` (lines 12-26), restricted to the fields
the verified claims speak about (the remaining fields are free-text
metadata: timestamp, titles, ids). -/
structure Opp where
  strategy : String
  poly_price : ℚ
  kalshi_price : ℚ
  total_cost : ℚ
  profit_cents : ℚ
  arb_type : String
deriving DecidableEq

/-- The four price checks of `detect_arbitrage_with_orderbooks`
(lines 122-190), run once the four asks are known present and
non-zero: intra-Polymarket spread, intra-Kalshi spread, then the two
cross-exchange strategies, appended in source order. -/
def detectBody (minProfitCents pYesAsk pNoAsk kYesAsk kNoAsk : ℚ) : List Opp :=
  let polySpreadCost := pYesAsk + pNoAsk
  let polySpreadProfit := 100 - polySpreadCost * 100
  let intraPoly : List Opp :=
    if minProfitCents ≤ polySpreadProfit then
      [{ strategy := "buy_poly_yes_and_no", poly_price := polySpreadCost, kalshi_price := 0,
         total_cost := polySpreadCost, profit_cents := polySpreadProfit,
         arb_type := "intra_poly" }]
    else []
  let kalshiSpreadCost := kYesAsk + kNoAsk
  let kalshiSpreadProfit := 100 - kalshiSpreadCost * 100
  let intraKalshi : List Opp :=
    if minProfitCents ≤ kalshiSpreadProfit then
      [{ strategy := "buy_kalshi_yes_and_no", poly_price := 0, kalshi_price := kalshiSpreadCost,
         total_cost := kalshiSpreadCost, profit_cents := kalshiSpreadProfit,
         arb_type := "intra_kalshi" }]
    else []
  let cost1 := pYesAsk + kNoAsk
  let profit1 := 100 - cost1 * 100
  let cross1 : List Opp :=
    if minProfitCents ≤ profit1 then
      [{ strategy := "poly_yes_kalshi_no", poly_price := pYesAsk, kalshi_price := kNoAsk,
         total_cost := cost1, profit_cents := profit1, arb_type := "cross_exchange" }]
    else []
  let cost2 := kYesAsk + pNoAsk
  let profit2 := 100 - cost2 * 100
  let cross2 : List Opp :=
    if minProfitCents ≤ profit2 then
      [{ strategy := "kalshi_yes_poly_no", poly_price := pNoAsk, kalshi_price := kYesAsk,
         total_cost := cost2, profit_cents := profit2, arb_type := "cross_exchange" }]
    else []
  intraPoly ++ intraKalshi ++ cross1 ++ cross2

/-- `detect_arbitrage_with_orderbooks` (lines 97-190).  Line 113,
`if not all([poly_yes_ask, poly_no_ask, kalshi_yes_ask, kalshi_no_ask]):
return []`, treats both `None` and the float `0.0` as falsy, so a
missing ask or an ask equal to zero suppresses all four checks. -/
def detectArbitrageWithOrderbooks (minProfitCents : ℚ)
    (polyOb : Option PolyBook) (kalshiOb : KalshiBook) : List Opp :=
  match getPolyAsks polyOb, getKalshiAsks kalshiOb with
  | (some pYesAsk, some pNoAsk), (some kYesAsk, some kNoAsk) =>
    if pYesAsk = 0 ∨ pNoAsk = 0 ∨ kYesAsk = 0 ∨ kNoAsk = 0 then []
    else detectBody minProfitCents pYesAsk pNoAsk kYesAsk kNoAsk
  | _, _ => []

/-- Python truthiness of an optional float as used by `all([...])` at
line 113: `None` and `0.0` are falsy. -/
def pyFalsy (o : Option ℚ) : Prop := o = none ∨ o = some 0

/- ===================================================================
   Arbitrage detector: multi-outcome
   src/arbitrage_detector.py, detect_multi_outcome_arbitrage (233-285)
   =================================================================== -/

/-- The fields of the multi-outcome opportunity the claims speak
about (the rest is free-text metadata). -/
structure MultiOpp where
  strategy : String
  total_cost : ℚ
  profit_cents : ℚ
deriving DecidableEq

/-- `detect_multi_outcome_arbitrage` (lines 233-285).  The input list
holds each outcome's optional `yes_ask` (line 252 defaults a missing
ask to `1.0`).  Fewer than 3 outcomes return `None` (line 248); the
sum of asks must fall strictly below `1 - 0.005` (lines 255-257) and
the profit `(1 - sum) * 100` must reach the configured floor
(line 261). -/
def detectMultiOutcomeArbitrage (minProfitCents : ℚ) (outcomePrices : List (Option ℚ)) :
    Option MultiOpp :=
  if outcomePrices.length < 3 then none
  else
    let totalCost := (outcomePrices.map (fun o => o.getD 1)).sum
    if totalCost < 1 - 5 / 1000 then
      let profitCents := (1 - totalCost) * 100
      if minProfitCents ≤ profitCents then
        some { strategy := "buy_all_" ++ toString outcomePrices.length ++ "_yes_outcomes",
               total_cost := totalCost, profit_cents := profitCents }
      else none
    else none

/- ===================================================================
   Market matcher: cache discipline
   src/market_matcher.py, match_new_market (141-175) and
   rematch_unmatched (189-214)
   =================================================================== -/

/-- A Python dict of strings, modelled as an insertion-ordered
association list (Python 3.7+ dict semantics). -/
abbrev StrDict := List (String × String)

/-- `kalshi_ticker in self.db.matched.values()` (lines 157 and 201). -/
def valueUsed (m : StrDict) (v : String) : Bool :=
  m.any (fun p => p.2 == v)

/-- `d[k] = v` on a Python dict: replaces the value in place when the
key exists, else appends a new entry. -/
def dictInsert (m : StrDict) (k v : String) : StrDict :=
  if m.any (fun p => p.1 == k) then
    m.map (fun p => if p.1 == k then (k, v) else p)
  else m ++ [(k, v)]

/-- The persistent `MatchDatabase` (market_matcher.py lines 22-45),
restricted to the fields the matching operations mutate. -/
structure MatchDB where
  matched : StrDict
  unmatched_poly : List String
deriving DecidableEq

/-- The inner loop shared by `match_new_market` (lines 155-164) and
`rematch_unmatched` (lines 200-210): scan the Kalshi `(ticker, title)`
map in order, skip tickers already used as a value of `matched`, and
return the first ticker whose title the fuzzy cascade accepts.  The
cascade `_fuzzy_match` (an external fuzzywuzzy / embedding call) is
abstracted as the predicate `fm`. -/
def firstUnusedMatch (matched : StrDict) (kalshiTitles : StrDict)
    (polyTitle : String) (fm : String → String → Bool) : Option String :=
  match kalshiTitles with
  | [] => none
  | (ticker, title) :: rest =>
    if valueUsed matched ticker then firstUnusedMatch matched rest polyTitle fm
    else if fm polyTitle title then some ticker
    else firstUnusedMatch matched rest polyTitle fm

/-- `match_new_market` (lines 141-175): returns the updated database
and the result.  An id already matched returns its cached ticker
(line 144); a known-unmatched id returns `None` (line 148); otherwise
the cascade runs over unused Kalshi tickers, a success is stored in
`matched`, a failure appends the id to `unmatched_poly`. -/
def matchNewMarket (db : MatchDB) (kalshiTitles : StrDict)
    (fm : String → String → Bool) (polyId polyTitle : String) :
    MatchDB × Option String :=
  match db.matched.lookup polyId with
  | some ticker => (db, some ticker)
  | none =>
    if polyId ∈ db.unmatched_poly then (db, none)
    else
      match firstUnusedMatch db.matched kalshiTitles polyTitle fm with
      | some ticker => ({ db with matched := dictInsert db.matched polyId ticker }, some ticker)
      | none => ({ db with unmatched_poly := db.unmatched_poly ++ [polyId] }, none)

/-- One iteration of the outer loop of `rematch_unmatched`
(lines 195-210) for a single unmatched id: skip ids with no known
(or empty) title, otherwise run the cascade against currently unused
Kalshi tickers; a success stores the match and removes the id from
the unmatched list (`list.remove` drops the first occurrence). -/
def rematchStep (polyTitles kalshiTitles : StrDict) (fm : String → String → Bool)
    (db : MatchDB) (polyId : String) : MatchDB :=
  match (polyTitles.lookup polyId).getD "" with
  | "" => db
  | polyTitle =>
    match firstUnusedMatch db.matched kalshiTitles polyTitle fm with
    | some ticker =>
      { matched := dictInsert db.matched polyId ticker
        unmatched_poly := db.unmatched_poly.erase polyId }
    | none => db

/-- `rematch_unmatched` (lines 189-214): iterates over a copy of the
unmatched list (line 195) while mutating the database. -/
def rematchUnmatched (db : MatchDB) (polyTitles kalshiTitles : StrDict)
    (fm : String → String → Bool) : MatchDB :=
  db.unmatched_poly.foldl (rematchStep polyTitles kalshiTitles fm) db

/-- Value-injectivity of the matched table: no two Polymarket ids map
to the same Kalshi ticker. -/
def valueInjective (m : StrDict) : Prop :=
  ∀ k₁ k₂ v, (k₁, v) ∈ m → (k₂, v) ∈ m → k₁ = k₂

/- ===================================================================
   Logical-constraint detector
   src/logical_constraints.py, detect_violations (183-247)
   =================================================================== -/

/-- `ConstraintType` (logical_constraints.py lines 9-14). -/
inductive ConstraintKind where
  | superset
  | implication
  | mutualExclusion
  | partitionKind
deriving DecidableEq

/-- `LogicalConstraint` (lines 17-25), restricted to the fields
`detect_violations` reads. -/
structure LConstraint where
  ctype : ConstraintKind
  market_ids : List String
  threshold : ℚ
deriving DecidableEq

/-- A `ConstraintViolation` (lines 27-35), restricted to the fields
the claims speak about. -/
structure Violation where
  strategy : String
  violation_amount : ℚ
  profit_estimate : ℚ
deriving DecidableEq

/-- The superset violation test of `detect_violations` line 209:
`earlier_price > later_price + constraint.threshold`. -/
def supersetViolated (threshold earlierPrice laterPrice : ℚ) : Bool :=
  laterPrice + threshold < earlierPrice

/-- `detect_violations` (lines 183-247).  Prices are a map from
market id to YES ask.  A superset constraint needs exactly two ids,
both priced; a violation yields profit `(amount - 0.03) * 100` and is
emitted only at or above the configured floor.  A mutual-exclusion
constraint sums the prices of its ids (missing ids price 0.0) and
fires when the sum exceeds `1 + threshold`.  The other two kinds have
no evaluation branch. -/
def detectViolations (minProfitCents : ℚ) (constraints : List LConstraint)
    (prices : List (String × ℚ)) : List Violation :=
  constraints.flatMap (fun c =>
    match c.ctype with
    | .superset =>
      match c.market_ids with
      | [earlierId, laterId] =>
        match prices.lookup earlierId, prices.lookup laterId with
        | some earlierPrice, some laterPrice =>
          if supersetViolated c.threshold earlierPrice laterPrice then
            let violationAmount := earlierPrice - laterPrice
            let profitEstimate := (violationAmount - 3 / 100) * 100
            if minProfitCents ≤ profitEstimate then
              [{ strategy := "buy_later_yes_buy_earlier_no",
                 violation_amount := violationAmount, profit_estimate := profitEstimate }]
            else []
          else []
        | _, _ => []
      | _ => []
    | .mutualExclusion =>
      let total := (c.market_ids.map (fun mid => (prices.lookup mid).getD 0)).sum
      if 1 + c.threshold < total then
        let violationAmount := total - 1
        let profitEstimate := (violationAmount - 3 / 100) * 100
        if minProfitCents ≤ profitEstimate then
          [{ strategy := "buy_all_no_positions",
             violation_amount := violationAmount, profit_estimate := profitEstimate }]
        else []
      else []
    | _ => [])

/- ===================================================================
   Unified scanner: crypto spot-lag helpers
   src/unified_scanner.py, parse_kalshi_subtitle (113-124),
   coin_from_ticker (126-130), is_near_threshold (132-137),
   evaluate_crypto_kalshi (139-180), make_crypto_opp (221-237)
   =================================================================== -/

/-- The result shape of `parse_kalshi_subtitle` (lines 113-124). -/
inductive ParsedSub where
  | above (threshold : ℚ)
  | below (threshold : ℚ)
  | bracket (low high : ℚ)
deriving DecidableEq

/-- A character matched by the regex class `[\d.]`. -/
def isDigitOrDot (c : Char) : Bool := c.isDigit || c == '.'

/-- Python `float` applied to a `[\d.]+` capture: at most one dot and
at least one digit; `"100."` is `100`, `"1.2.3"` raises (here:
`none`). -/
def parseFloatQ (cs : List Char) : Option ℚ :=
  match cs.splitOn '.' with
  | [intPart] =>
    if intPart.isEmpty then none
    else some ((Nat.ofDigits 10 (intPart.map (fun c => c.toNat - '0'.toNat)).reverse : ℕ) : ℚ)
  | [intPart, fracPart] =>
    if intPart.isEmpty ∧ fracPart.isEmpty then none
    else
      some (((Nat.ofDigits 10 (intPart.map (fun c => c.toNat - '0'.toNat)).reverse : ℕ) : ℚ) +
        ((Nat.ofDigits 10 (fracPart.map (fun c => c.toNat - '0'.toNat)).reverse : ℕ) : ℚ) /
          (10 : ℚ) ^ fracPart.length)
  | _ => none

/-- Consume the literal characters `lit` from the head of `cs`. -/
def expectChars (lit cs : List Char) : Option (List Char) :=
  match lit, cs with
  | [], rest => some rest
  | l :: ls, c :: rest => if c = l then expectChars ls rest else none
  | _ :: _, [] => none

/-- Match `\$?([\d.]+)\s+` at the head of `cs`: optional dollar sign,
a greedy nonempty `[\d.]+` capture, then nonempty whitespace.
Returns the parsed capture and the remaining characters.  (The regex
never benefits from backtracking here: shrinking the greedy capture
leaves a digit or dot where `\s` is required.) -/
def matchNumWs (cs : List Char) : Option (ℚ × List Char) :=
  let cs' := match cs with
    | '$' :: rest => rest
    | _ => cs
  let chunk := cs'.takeWhile isDigitOrDot
  if chunk.isEmpty then none
  else
    let rest := cs'.drop chunk.length
    let ws := rest.takeWhile (fun c => c.isWhitespace)
    if ws.isEmpty then none
    else
      match parseFloatQ chunk with
      | some q => some (q, rest.drop ws.length)
      | none => none

/-- `re.match(r'\$?([\d.]+)\s+or above', s)` (line 115; `re.match`
anchors at the start and allows trailing text). -/
def matchAbove (cs : List Char) : Option ℚ :=
  match matchNumWs cs with
  | some (q, rest) =>
    match expectChars "or above".data rest with
    | some _ => some q
    | none => none
  | none => none

/-- `re.match(r'\$?([\d.]+)\s+or below', s)` (line 116). -/
def matchBelow (cs : List Char) : Option ℚ :=
  match matchNumWs cs with
  | some (q, rest) =>
    match expectChars "or below".data rest with
    | some _ => some q
    | none => none
  | none => none

/-- `re.match(r'\$?([\d.]+)\s+to\s+([\d.]+)', s)` (line 117). -/
def matchBracket (cs : List Char) : Option (ℚ × ℚ) :=
  match matchNumWs cs with
  | some (low, rest) =>
    match expectChars "to".data rest with
    | some rest' =>
      let ws := rest'.takeWhile (fun c => c.isWhitespace)
      if ws.isEmpty then none
      else
        let chunk := (rest'.drop ws.length).takeWhile isDigitOrDot
        if chunk.isEmpty then none
        else
          match parseFloatQ chunk with
          | some high => some (low, high)
          | none => none
    | none => none
  | none => none

/-- `parse_kalshi_subtitle` (lines 113-124): strip commas, then try
the above, below and bracket patterns in order. -/
def parseKalshiSubtitle (subtitle : String) : Option ParsedSub :=
  let s := subtitle.data.filter (fun c => c ≠ ',')
  match matchAbove s with
  | some t => some (.above t)
  | none =>
    match matchBelow s with
    | some t => some (.below t)
    | none =>
      match matchBracket s with
      | some (low, high) => some (.bracket low high)
      | none => none

/-- `str.startswith`, character by character. -/
def strStartsWith (s pre : String) : Bool :=
  (expectChars pre.data s.data).isSome

/-- `coin_from_ticker` (lines 126-130). -/
def coinFromTicker (ticker : String) : Option String :=
  if strStartsWith ticker "KXBTC" then some "BTC"
  else if strStartsWith ticker "KXETH" then some "ETH"
  else if strStartsWith ticker "KXSOL" then some "SOL"
  else none

/-- `is_near_threshold` (lines 132-137) with
`CRYPTO_PROXIMITY = 0.05` (line 43): spot must lie within 5% of the
threshold; a zero threshold is never near. -/
def isNearThreshold (spot threshold : ℚ) : Bool :=
  if threshold = 0 then false
  else |spot - threshold| / threshold ≤ 5 / 100

/-- A crypto spot-lag opportunity dict (`make_crypto_opp`,
lines 221-237), restricted to the fields the claims speak about. -/
structure CryptoOpp where
  source : String
  coin : String
  ticker : String
  spot : ℚ
  threshold : ℚ
  prediction : ℚ
  side : String
  profit_cents : ℚ
deriving DecidableEq

/-- `make_crypto_opp` (lines 221-237): the profit is
`abs(1.0 - prediction) * 100` for a BUY YES and `prediction * 100`
for a BUY NO (line 235).  No minimum-profit floor is consulted. -/
def makeCryptoOpp (source coin ticker : String) (spot threshold prediction : ℚ)
    (side : String) : CryptoOpp :=
  { source := source, coin := coin, ticker := ticker, spot := spot,
    threshold := threshold, prediction := prediction, side := side,
    profit_cents := if side == "BUY YES" then |1 - prediction| * 100 else prediction * 100 }

/-- A Kalshi crypto market as read by `evaluate_crypto_kalshi`:
ticker, subtitle and title strings. -/
structure CryptoMarket where
  ticker : String
  subtitle : String
  title : String
deriving DecidableEq

/-- `evaluate_crypto_kalshi` (lines 139-180) with
`CRYPTO_MISPRICING = 0.15` (line 42): an unknown coin or unparseable
subtitle yields nothing; otherwise the proximity gate runs first and,
inside the band, a cheap YES (ask < 0.15) on a true proposition or an
expensive YES (ask > 0.85) on a false one is flagged. -/
def evaluateCryptoKalshi (market : CryptoMarket) (spot yesPrice : ℚ) : Option CryptoOpp :=
  match coinFromTicker market.ticker with
  | none => none
  | some coin =>
    match parseKalshiSubtitle market.subtitle with
    | none => none
    | some (.above threshold) =>
      if ¬ isNearThreshold spot threshold then none
      else if threshold ≤ spot ∧ yesPrice < 15 / 100 then
        some (makeCryptoOpp "kalshi" coin market.ticker spot threshold yesPrice "BUY YES")
      else if spot < threshold ∧ 1 - 15 / 100 < yesPrice then
        some (makeCryptoOpp "kalshi" coin market.ticker spot threshold yesPrice "BUY NO")
      else none
    | some (.below threshold) =>
      if ¬ isNearThreshold spot threshold then none
      else if spot ≤ threshold ∧ yesPrice < 15 / 100 then
        some (makeCryptoOpp "kalshi" coin market.ticker spot threshold yesPrice "BUY YES")
      else if threshold < spot ∧ 1 - 15 / 100 < yesPrice then
        some (makeCryptoOpp "kalshi" coin market.ticker spot threshold yesPrice "BUY NO")
      else none
    | some (.bracket low high) =>
      if ¬ (isNearThreshold spot low ∨ isNearThreshold spot high) then none
      else if (low ≤ spot ∧ spot ≤ high) ∧ yesPrice < 15 / 100 then
        some (makeCryptoOpp "kalshi" coin market.ticker spot low yesPrice "BUY YES")
      else if ¬ (low ≤ spot ∧ spot ≤ high) ∧ 1 - 15 / 100 < yesPrice then
        some (makeCryptoOpp "kalshi" coin market.ticker spot low yesPrice "BUY NO")
      else none

/-- The scan loop's Kalshi crypto emission step (unified_scanner.py
lines 501-503): whatever `evaluate_crypto_kalshi` returns is appended
to the found list unconditionally — `MIN_PROFIT_CENTS` is not
consulted on this path. -/
def scanCryptoKalshiStep (found : List CryptoOpp) (market : CryptoMarket)
    (spot yesPrice : ℚ) : List CryptoOpp :=
  match evaluateCryptoKalshi market spot yesPrice with
  | some opp => found ++ [opp]
  | none => found

/- ===================================================================
   Unified scanner: Polymarket crypto spot-lag
   src/unified_scanner.py, extract_threshold (190-192) and
   evaluate_crypto_poly (194-219)
   =================================================================== -/

/-- One attempt of the regex `\$(\d[\d,]*(?:\.\d+)?)` at the position
right after a dollar sign: a digit, then greedily digits and commas,
then an optional dot followed by at least one digit.  Returns the
captured characters.  (Greediness is exact here: the classes `[\d,]`
and `\.` are disjoint, so backtracking never helps.) -/
def matchDollarNum (cs : List Char) : Option (List Char) :=
  match cs with
  | c :: rest =>
    if c.isDigit then
      let body := rest.takeWhile (fun x => x.isDigit || x == ',')
      match rest.drop body.length with
      | '.' :: r2 =>
        let frac := r2.takeWhile Char.isDigit
        if frac.isEmpty then some (c :: body)
        else some ((c :: body) ++ '.' :: frac)
      | _ => some (c :: body)
    else none
  | [] => none

/-- `re.findall(r'\$(\d[\d,]*(?:\.\d+)?)', title)` (line 191): all
captures, scanning left to right.  Scanning character by character is
equivalent to re.findall's continue-after-the-match scan because a
capture never contains `$`, so no match can start inside another. -/
def findDollarMatches : List Char → List (List Char)
  | [] => []
  | c :: rest =>
    if c = '$' then
      match matchDollarNum rest with
      | some cap => cap :: findDollarMatches rest
      | none => findDollarMatches rest
    else findDollarMatches rest

/-- `extract_threshold` (lines 190-192): the maximum over all dollar
amounts found in the title, commas stripped before float conversion,
or `None` when there is no match.  (Each capture is digits, commas
and at most one dot, so `parseFloatQ` always succeeds on it; the
`getD 0` default is unreachable.) -/
def extractThreshold (title : String) : Option ℚ :=
  match (findDollarMatches title.data).map
      (fun m => (parseFloatQ (m.filter (fun c => c ≠ ','))).getD 0) with
  | [] => none
  | v :: vs => some (vs.foldl max v)

/-- Python `str.upper()` on a title, as a character list (the
keywords compared against are plain ASCII). -/
def strUpper (s : String) : List Char :=
  s.data.map Char.toUpper

/-- Python `needle in hay` substring containment. -/
def containsSub (hay needle : List Char) : Bool :=
  match hay with
  | [] => needle.isEmpty
  | _ :: rest => (expectChars needle hay).isSome || containsSub rest needle

/-- `any(w in t_upper for w in kws)` (lines 207 and 209). -/
def anyKeyword (hay : List Char) (kws : List String) : Bool :=
  kws.any (fun w => containsSub hay w.data)

/-- A Polymarket crypto market as read by `evaluate_crypto_poly`:
title, slug and condition id (the source's `title`/`question` and
`condition_id`/`conditionId` dict fallbacks collapse to one field
each). -/
structure PolyCryptoMarket where
  title : String
  slug : String
  condition_id : String
deriving DecidableEq

/-- `evaluate_crypto_poly` (lines 194-219): a missing threshold — and,
by Python falsiness, a threshold of 0.0 — yields nothing (line 199),
then the proximity gate runs (line 203); the title's upper-cased
keywords pick the above/below reading (lines 206-209), and within the
band a cheap YES (ask < 0.15) on a true proposition or an expensive
YES (ask > 0.85) on a false one is flagged.  The condition id is
passed to `make_crypto_opp` in the ticker position; the slug only
feeds the omitted free-text url field. -/
def evaluateCryptoPoly (market : PolyCryptoMarket) (spot yesAsk : ℚ) (coin : String) :
    Option CryptoOpp :=
  match extractThreshold market.title with
  | none => none
  | some threshold =>
    if threshold = 0 then none
    else if ¬ isNearThreshold spot threshold then none
    else
      let tUpper := strUpper market.title
      let isAbove := anyKeyword tUpper ["ABOVE", "OVER", "EXCEED", "REACH", "HIT", "CROSS"]
      if isAbove || ¬ anyKeyword tUpper ["BELOW", "UNDER", "DROP", "FALL"] then
        if threshold < spot ∧ yesAsk < 15 / 100 then
          some (makeCryptoOpp "polymarket" coin market.condition_id spot threshold yesAsk
            "BUY YES")
        else if spot < threshold ∧ 1 - 15 / 100 < yesAsk then
          some (makeCryptoOpp "polymarket" coin market.condition_id spot threshold yesAsk
            "BUY NO")
        else none
      else
        if spot < threshold ∧ yesAsk < 15 / 100 then
          some (makeCryptoOpp "polymarket" coin market.condition_id spot threshold yesAsk
            "BUY YES")
        else if threshold < spot ∧ 1 - 15 / 100 < yesAsk then
          some (makeCryptoOpp "polymarket" coin market.condition_id spot threshold yesAsk
            "BUY NO")
        else none

/-- The scan loop's Polymarket crypto emission step
(unified_scanner.py lines 509-524): whatever `evaluate_crypto_poly`
returns is appended to the found list unconditionally —
`MIN_PROFIT_CENTS` is not consulted on this path either. -/
def scanCryptoPolyStep (found : List CryptoOpp) (market : PolyCryptoMarket)
    (spot yesAsk : ℚ) (coin : String) : List CryptoOpp :=
  match evaluateCryptoPoly market spot yesAsk coin with
  | some opp => found ++ [opp]
  | none => found

/- ===================================================================
   Theorems
   =================================================================== -/

/-- Claim C1, counterexample: with the source's `max_retries = 3`,
three consecutive 429 responses exhaust the attempts — the fourth
response (a 200 with payload 7) is never requested, the call returns
the empty result `none`, and the total wait is 1.5 + 3 = 4.5 seconds
(4500 ms), not the claimed 10.5 seconds. -/
theorem retry_three_429_then_200_no_recovery :
    requestWithRetry (fun n => if n < 3 then .rateLimited else .ok 7) 3 = (none, 4500) ∧
    ((none : Option Nat), (4500 : Nat)) ≠ (some 7, 10500) := by
  constructor
  · decide
  · decide

/-- Claim C1, amended: a non-200 response other than 429 causes no
retry and an empty result; 429 responses are retried with exponential
backoff `1.5 * 2 ^ n` seconds up to 3 total attempts, so the first
two 429s wait 1.5 s and 3 s, two consecutive 429s followed by a 200
return the 200's payload after a total wait of 4.5 s, and a third
consecutive 429 returns the empty result after the same 4.5 s total
wait. -/
theorem retry_backoff_contract (responses : Nat → RetryResponse) (p s : Nat) :
    (responses 0 = .ok p → requestWithRetry responses 3 = (some p, 0)) ∧
    (responses 0 = .otherStatus s → requestWithRetry responses 3 = (none, 0)) ∧
    (responses 0 = .rateLimited → responses 1 = .ok p →
      requestWithRetry responses 3 = (some p, 1500)) ∧
    (responses 0 = .rateLimited → responses 1 = .rateLimited → responses 2 = .ok p →
      requestWithRetry responses 3 = (some p, 4500)) ∧
    (responses 0 = .rateLimited → responses 1 = .rateLimited → responses 2 = .rateLimited →
      requestWithRetry responses 3 = (none, 4500)) := by
  refine ⟨fun h0 => ?_, fun h0 => ?_, fun h0 h1 => ?_, fun h0 h1 h2 => ?_, fun h0 h1 h2 => ?_⟩ <;>
    simp [requestWithRetry, retryFor, h0] <;>
    simp [retryFor, h1] <;>
    simp [retryFor, h2]

/-- Witness for `retry_backoff_contract` at a concrete response
sequence: two 429s then a 200 with payload 9. -/
theorem retry_backoff_contract_witness :
    requestWithRetry (fun n => if n < 2 then .rateLimited else .ok 9) 3 = (some 9, 4500) :=
  (retry_backoff_contract (fun n => if n < 2 then .rateLimited else .ok 9) 9 0).2.2.2.1
    (by decide) (by decide) (by decide)

/-- Claim C3: for a Kalshi orderbook with non-empty ladders whose
best (last) bids are `yes_bid` and `no_bid` integer cents, the
derived asks are `(100 - no_bid)/100` and `(100 - yes_bid)/100`, and
their sum is at least `(100 - yes_bid - no_bid)/100 + 1` (in fact
exactly equal, so the spread is non-negative). -/
theorem kalshi_derived_asks_spread (ob : KalshiBook) (yb nb : ℤ × ℤ)
    (hy : ob.yes.getLast? = some yb) (hn : ob.no.getLast? = some nb) :
    getKalshiAsks ob = (some ((100 - (nb.1 : ℚ)) / 100), some ((100 - (yb.1 : ℚ)) / 100)) ∧
    (100 - (nb.1 : ℚ)) / 100 + (100 - (yb.1 : ℚ)) / 100 ≥
      (100 - (yb.1 : ℚ) - (nb.1 : ℚ)) / 100 + 1 := by
  constructor
  · unfold getKalshiAsks
    rw [hy, hn]
  · have h :
        (100 - (nb.1 : ℚ)) / 100 + (100 - (yb.1 : ℚ)) / 100 =
          (100 - (yb.1 : ℚ) - (nb.1 : ℚ)) / 100 + 1 := by ring
    linarith

/-- Witness for `kalshi_derived_asks_spread` at a concrete orderbook:
yes ladder ending with bid 40¢, no ladder ending with bid 55¢. -/
theorem kalshi_derived_asks_spread_witness :
    getKalshiAsks ⟨[(40, 100)], [(55, 50)]⟩ =
      (some ((100 - ((55 : ℤ) : ℚ)) / 100), some ((100 - ((40 : ℤ) : ℚ)) / 100)) ∧
    (100 - ((55 : ℤ) : ℚ)) / 100 + (100 - ((40 : ℤ) : ℚ)) / 100 ≥
      (100 - ((40 : ℤ) : ℚ) - ((55 : ℤ) : ℚ)) / 100 + 1 :=
  kalshi_derived_asks_spread ⟨[(40, 100)], [(55, 50)]⟩ (40, 100) (55, 50) rfl rfl

/-- Claim C9, code bug: `_get_headers` samples the millisecond clock
at line 57 for the ACCESS-TIMESTAMP header and `_sign_request`
samples it again at line 44 for the signed message.  When the clock
advances between the two samples (here: 1000 ms, then 1001 ms) the
headers carry timestamp "1000" while the signature covers the message
built from timestamp 1001 — which differs from the signature over the
message built from the header's own timestamp.  So the timestamp
inside the signed message does not always equal the value sent in the
ACCESS-TIMESTAMP header. -/
theorem sign_header_timestamp_mismatch :
    (getHeaders id "key" 1000 1001 "GET" "/markets" "").accessTimestamp = "1000" ∧
    (getHeaders id "key" 1000 1001 "GET" "/markets" "").accessSignature =
      signRequest id 1001 "GET" "/markets" "" ∧
    signRequest id 1001 "GET" "/markets" "" ≠ signRequest id 1000 "GET" "/markets" "" := by
  refine ⟨rfl, rfl, ?_⟩
  decide

/-- Claim C4: the multi-outcome detector returns an opportunity
exactly when the outcome list has at least 3 entries, the sum S of
all YES asks (missing asks defaulting to 1.0) is strictly below
`1 - 0.005`, and `(1 - S) * 100` reaches the configured floor; the
emitted opportunity then carries `total_cost = S`,
`profit_cents = (1 - S) * 100` and strategy `buy_all_K_yes_outcomes`;
in particular yes asks {0.20, 0.25, 0.25, 0.28} with floor 1¢ yield
profit 2¢ and strategy `buy_all_4_yes_outcomes`. -/
theorem multi_outcome_characterization :
    (∀ (m : ℚ) (os : List (Option ℚ)),
      detectMultiOutcomeArbitrage m os =
        if 3 ≤ os.length ∧ (os.map (fun o => o.getD 1)).sum < 1 - 5 / 1000 ∧
            m ≤ (1 - (os.map (fun o => o.getD 1)).sum) * 100 then
          some { strategy := "buy_all_" ++ toString os.length ++ "_yes_outcomes",
                 total_cost := (os.map (fun o => o.getD 1)).sum,
                 profit_cents := (1 - (os.map (fun o => o.getD 1)).sum) * 100 }
        else none) ∧
    detectMultiOutcomeArbitrage 1 [some (20/100), some (25/100), some (25/100), some (28/100)] =
      some { strategy := "buy_all_4_yes_outcomes", total_cost := 98/100, profit_cents := 2 } := by
  constructor
  · intro m os
    simp only [detectMultiOutcomeArbitrage]
    split_ifs with h1 h2 h3 h4 h5 h6 <;> try rfl
    all_goals first
      | (exfalso; omega)
      | (exfalso; exact h5 ⟨by omega, h3, h4⟩)
      | (exfalso; tauto)
  · norm_num [detectMultiOutcomeArbitrage]
    decide

/-- Every opportunity produced by the four checks of `detectBody`
carries a profit at or above the configured floor. -/
theorem detectBody_floor (m a b c d : ℚ) (opp : Opp)
    (h : opp ∈ detectBody m a b c d) : m ≤ opp.profit_cents := by
  simp only [detectBody] at h
  split_ifs at h <;>
    simp only [List.mem_append, List.mem_singleton, List.not_mem_nil, or_false, false_or] at h <;>
    first
      | exact h.elim
      | (rcases h with ((rfl | rfl) | rfl) | rfl <;> simp_all)

/-- The pairwise detector only emits opportunities at or above the
configured floor. -/
theorem detect_floor (m : ℚ) (polyOb : Option PolyBook) (kOb : KalshiBook) (opp : Opp)
    (h : opp ∈ detectArbitrageWithOrderbooks m polyOb kOb) : m ≤ opp.profit_cents := by
  unfold detectArbitrageWithOrderbooks at h
  rcases hpq : getPolyAsks polyOb with ⟨p1, p2⟩
  rcases hkq : getKalshiAsks kOb with ⟨k1, k2⟩
  rw [hpq, hkq] at h
  cases p1 <;> cases p2 <;> cases k1 <;> cases k2 <;> simp_all
  exact detectBody_floor m _ _ _ _ opp h.2

/-- The multi-outcome detector only emits opportunities at or above
the configured floor. -/
theorem multi_floor (m : ℚ) (os : List (Option ℚ)) (opp : MultiOpp)
    (h : detectMultiOutcomeArbitrage m os = some opp) : m ≤ opp.profit_cents := by
  simp only [detectMultiOutcomeArbitrage] at h
  split_ifs at h <;>
    first
      | exact Option.noConfusion h
      | (rw [← Option.some.inj h]; simp_all)

/-- The logical-constraint detector only emits violations whose
profit estimate is at or above the configured floor. -/
theorem violations_floor (m : ℚ) (cs : List LConstraint) (prices : List (String × ℚ))
    (v : Violation) (h : v ∈ detectViolations m cs prices) : m ≤ v.profit_estimate := by
  simp only [detectViolations, List.mem_flatMap] at h
  obtain ⟨c, -, hv⟩ := h
  cases hc : c.ctype <;> rw [hc] at hv <;> try dsimp only at hv
  case superset =>
    rcases hids : c.market_ids with _ | ⟨e, _ | ⟨l, _ | _⟩⟩ <;> rw [hids] at hv <;>
        (try dsimp only at hv) <;>
      try exact absurd hv (List.not_mem_nil v)
    rcases hpe : prices.lookup e with _ | pe <;> rw [hpe] at hv <;>
        (try dsimp only at hv) <;>
      try exact absurd hv (List.not_mem_nil v)
    rcases hpl : prices.lookup l with _ | pl <;> rw [hpl] at hv <;>
        (try dsimp only at hv) <;>
      try exact absurd hv (List.not_mem_nil v)
    split_ifs at hv <;>
      first
        | exact absurd hv (List.not_mem_nil v)
        | (rcases List.mem_singleton.1 hv with rfl; simp_all)
  case implication => exact absurd hv (List.not_mem_nil v)
  case mutualExclusion =>
    split_ifs at hv <;>
      first
        | exact absurd hv (List.not_mem_nil v)
        | (rcases List.mem_singleton.1 hv with rfl; simp_all)
  case partitionKind => exact absurd hv (List.not_mem_nil v)

/-- Every crypto spot-lag opportunity the Kalshi evaluator emits has
profit strictly above 85¢, because a BUY YES requires an ask below
0.15 and a BUY NO an ask above 0.85. -/
theorem crypto_profit_high (mkt : CryptoMarket) (spot y : ℚ) (opp : CryptoOpp)
    (h : evaluateCryptoKalshi mkt spot y = some opp) : 85 < opp.profit_cents := by
  have hyes : ∀ (source coin ticker : String) (sp th z : ℚ), z < 15/100 →
      85 < (makeCryptoOpp source coin ticker sp th z "BUY YES").profit_cents := by
    intro source coin ticker sp th z hz
    have hb : (("BUY YES" : String) == "BUY YES") = true := by decide
    simp only [makeCryptoOpp, hb, if_true]
    rw [abs_of_pos (by linarith)]
    linarith
  have hno : ∀ (source coin ticker : String) (sp th z : ℚ), 1 - 15/100 < z →
      85 < (makeCryptoOpp source coin ticker sp th z "BUY NO").profit_cents := by
    intro source coin ticker sp th z hz
    have hb : (("BUY NO" : String) == "BUY YES") = false := by decide
    simp only [makeCryptoOpp, hb, Bool.false_eq_true, if_false]
    linarith
  unfold evaluateCryptoKalshi at h
  rcases hc : coinFromTicker mkt.ticker with _ | coin <;> rw [hc] at h
  · simp_all
  rcases hp : parseKalshiSubtitle mkt.subtitle with _ | p <;> rw [hp] at h
  · simp_all
  cases p <;> dsimp only at h <;> split_ifs at h with h1 h2 h3 <;>
    first
      | (rw [← Option.some.inj h]; exact hyes _ _ _ _ _ _ h2.2)
      | (rw [← Option.some.inj h]; exact hno _ _ _ _ _ _ h3.2)
      | exact Option.noConfusion h

/-- Claim C2, counterexample: the scanner's crypto spot-lag path
(unified_scanner.py lines 501-503) appends whatever the evaluator
returns without consulting `MIN_PROFIT_CENTS`.  For the market
"100 or above" with spot 99 and YES ask 0.86 it emits a BUY NO
opportunity with `profit_cents = 86`; with the floor configured to
90 this violates `profit_cents ≥ MIN_PROFIT_CENTS`. -/
theorem crypto_emission_below_floor :
    scanCryptoKalshiStep [] ⟨"KXBTC-T", "100 or above", "t"⟩ 99 (86/100) =
      [makeCryptoOpp "kalshi" "BTC" "KXBTC-T" 99 100 (86/100) "BUY NO"] ∧
    (makeCryptoOpp "kalshi" "BTC" "KXBTC-T" 99 100 (86/100) "BUY NO").profit_cents = 86 ∧
    ((86 : ℚ) < 90) := by
  have hc : coinFromTicker "KXBTC-T" = some "BTC" := by decide
  have hp : parseKalshiSubtitle "100 or above" = some (.above 100) := by decide
  have hb : (("BUY NO" : String) == "BUY YES") = false := by decide
  refine ⟨?_, ?_, by norm_num⟩
  · unfold scanCryptoKalshiStep evaluateCryptoKalshi
    rw [hc, hp]
    norm_num [isNearThreshold]
  · simp only [makeCryptoOpp, hb, Bool.false_eq_true, if_false]
    norm_num

/-- Every crypto spot-lag opportunity the Polymarket evaluator emits
has profit strictly above 85¢, by the same mispricing gate as the
Kalshi evaluator: a BUY YES requires an ask below 0.15 and a BUY NO
an ask above 0.85 — in both title-direction branches. -/
theorem crypto_poly_profit_high (mkt : PolyCryptoMarket) (spot y : ℚ) (coin : String)
    (opp : CryptoOpp) (h : evaluateCryptoPoly mkt spot y coin = some opp) :
    85 < opp.profit_cents := by
  have hyes : ∀ (source c ticker : String) (sp th z : ℚ), z < 15/100 →
      85 < (makeCryptoOpp source c ticker sp th z "BUY YES").profit_cents := by
    intro source c ticker sp th z hz
    have hb : (("BUY YES" : String) == "BUY YES") = true := by decide
    simp only [makeCryptoOpp, hb, if_true]
    rw [abs_of_pos (by linarith)]
    linarith
  have hno : ∀ (source c ticker : String) (sp th z : ℚ), 1 - 15/100 < z →
      85 < (makeCryptoOpp source c ticker sp th z "BUY NO").profit_cents := by
    intro source c ticker sp th z hz
    have hb : (("BUY NO" : String) == "BUY YES") = false := by decide
    simp only [makeCryptoOpp, hb, Bool.false_eq_true, if_false]
    linarith
  unfold evaluateCryptoPoly at h
  rcases ht : extractThreshold mkt.title with _ | t <;> rw [ht] at h
  · exact Option.noConfusion h
  dsimp only at h
  split_ifs at h with h1 h2 h3 h4 h5 h6 h7 <;>
    first
      | exact Option.noConfusion h
      | (rw [← Option.some.inj h]; exact hyes _ _ _ _ _ _ h4.2)
      | (rw [← Option.some.inj h]; exact hno _ _ _ _ _ _ h5.2)
      | (rw [← Option.some.inj h]; exact hyes _ _ _ _ _ _ h6.2)
      | (rw [← Option.some.inj h]; exact hno _ _ _ _ _ _ h7.2)

/-- Claim C2, amended: the cross-exchange and intra-venue checks, the
multi-outcome detector and the logical-constraint detector each
enforce `profit_cents ≥ MIN_PROFIT_CENTS` on everything they emit;
the two crypto spot-lag paths (the Kalshi evaluator and the
Polymarket evaluator) do not consult the floor but always emit
`profit_cents > 85` (because the mispricing gate δ = 0.15 bounds the
ask), so the claimed invariant holds on every emission path whenever
the configured floor is at most 85¢ — in particular at the
default 1¢. -/
theorem profit_floor_all_paths :
    (∀ (m : ℚ) (polyOb : Option PolyBook) (kOb : KalshiBook) (opp : Opp),
        opp ∈ detectArbitrageWithOrderbooks m polyOb kOb → m ≤ opp.profit_cents) ∧
    (∀ (m : ℚ) (os : List (Option ℚ)) (opp : MultiOpp),
        detectMultiOutcomeArbitrage m os = some opp → m ≤ opp.profit_cents) ∧
    (∀ (m : ℚ) (cs : List LConstraint) (prices : List (String × ℚ)) (v : Violation),
        v ∈ detectViolations m cs prices → m ≤ v.profit_estimate) ∧
    (∀ (mkt : CryptoMarket) (spot y : ℚ) (opp : CryptoOpp),
        evaluateCryptoKalshi mkt spot y = some opp → 85 < opp.profit_cents) ∧
    (∀ (mkt : PolyCryptoMarket) (spot y : ℚ) (coin : String) (opp : CryptoOpp),
        evaluateCryptoPoly mkt spot y coin = some opp → 85 < opp.profit_cents) :=
  ⟨fun m polyOb kOb opp h => detect_floor m polyOb kOb opp h,
   fun m os opp h => multi_floor m os opp h,
   fun m cs prices v h => violations_floor m cs prices v h,
   fun mkt spot y opp h => crypto_profit_high mkt spot y opp h,
   fun mkt spot y coin opp h => crypto_poly_profit_high mkt spot y coin opp h⟩

/-- Witness for `profit_floor_all_paths`: one concrete emitted
opportunity per path, each hypothesis discharged at a concrete
input. -/
theorem profit_floor_all_paths_witness :
    (1 : ℚ) ≤ (Opp.mk "buy_poly_yes_and_no" (40/100 + 50/100) 0 (40/100 + 50/100)
        (100 - (40/100 + 50/100) * 100) "intra_poly").profit_cents ∧
    (1 : ℚ) ≤ (MultiOpp.mk "buy_all_4_yes_outcomes" (98/100) 2).profit_cents ∧
    (1 : ℚ) ≤ (Violation.mk "buy_later_yes_buy_earlier_no" (60/100 - 50/100)
        ((60/100 - 50/100 - 3/100) * 100)).profit_estimate ∧
    (85 : ℚ) < (makeCryptoOpp "kalshi" "BTC" "KXBTC-T" 99 100 (86/100) "BUY NO").profit_cents ∧
    (85 : ℚ) <
      (makeCryptoOpp "polymarket" "BTC" "cid1" 99 100 (9/10) "BUY NO").profit_cents := by
  refine ⟨?_, ?_, ?_, ?_, ?_⟩
  · refine profit_floor_all_paths.1 1
      (some ⟨some ⟨none, some (40/100)⟩, some ⟨none, some (50/100)⟩⟩) ⟨[(40, 1)], [(40, 1)]⟩ _ ?_
    norm_num [detectArbitrageWithOrderbooks, getPolyAsks, getKalshiAsks, detectBody]
  · refine profit_floor_all_paths.2.1 1
      [some (20/100), some (25/100), some (25/100), some (28/100)] _ ?_
    norm_num [detectMultiOutcomeArbitrage]
    decide
  · refine profit_floor_all_paths.2.2.1 1 [LConstraint.mk .superset ["e", "l"] (2/100)]
      [("e", 60/100), ("l", 50/100)] _ ?_
    have h1 : (("e" : String) == "e") = true := by decide
    have h2 : (("l" : String) == "e") = false := by decide
    have h3 : (("l" : String) == "l") = true := by decide
    norm_num [detectViolations, supersetViolated, List.lookup, h1, h2, h3]
  · refine profit_floor_all_paths.2.2.2.1 ⟨"KXBTC-T", "100 or above", "t"⟩ 99 (86/100) _ ?_
    have hc : coinFromTicker "KXBTC-T" = some "BTC" := by decide
    have hp : parseKalshiSubtitle "100 or above" = some (.above 100) := by decide
    unfold evaluateCryptoKalshi
    rw [hc, hp]
    norm_num [isNearThreshold]
  · refine profit_floor_all_paths.2.2.2.2 ⟨"BTC above $100", "slug", "cid1"⟩ 99 (9/10) "BTC"
      _ ?_
    have hth : extractThreshold "BTC above $100" = some 100 := by decide
    have hab : anyKeyword (strUpper "BTC above $100")
        ["ABOVE", "OVER", "EXCEED", "REACH", "HIT", "CROSS"] = true := by decide
    unfold evaluateCryptoPoly
    rw [hth]
    norm_num [isNearThreshold, hab]

/-- Claim C5: when all four asks are present (and non-zero, which the
`all([...])` gate requires), the two cross-exchange strategies are
evaluated independently with costs `A_yes + B_no` and `B_yes + A_no`
and profit `(1 - cost) * 100`; whichever subset of the two meets the
floor is emitted, each as its own opportunity with its own strategy
tag — both when both qualify, exactly one when one qualifies. -/
theorem cross_strategies_independent (minP a b c d : ℚ)
    (polyOb : Option PolyBook) (kOb : KalshiBook)
    (hp : getPolyAsks polyOb = (some a, some b))
    (hk : getKalshiAsks kOb = (some c, some d))
    (ha : a ≠ 0) (hb : b ≠ 0) (hc : c ≠ 0) (hd : d ≠ 0) :
    (detectArbitrageWithOrderbooks minP polyOb kOb).filter
        (fun o => o.arb_type == "cross_exchange") =
      (if minP ≤ (1 - (a + d)) * 100 then
        [{ strategy := "poly_yes_kalshi_no", poly_price := a, kalshi_price := d,
           total_cost := a + d, profit_cents := 100 - (a + d) * 100,
           arb_type := "cross_exchange" }] else []) ++
      (if minP ≤ (1 - (c + b)) * 100 then
        [{ strategy := "kalshi_yes_poly_no", poly_price := b, kalshi_price := c,
           total_cost := c + b, profit_cents := 100 - (c + b) * 100,
           arb_type := "cross_exchange" }] else []) := by
  have hmain : detectArbitrageWithOrderbooks minP polyOb kOb = detectBody minP a b c d := by
    unfold detectArbitrageWithOrderbooks
    rw [hp, hk]
    simp [ha, hb, hc, hd]
  rw [hmain]
  have e1 : (1 - (a + d)) * 100 = 100 - (a + d) * 100 := by ring
  have e2 : (1 - (c + b)) * 100 = 100 - (c + b) * 100 := by ring
  rw [e1, e2]
  simp only [detectBody]
  split_ifs <;> simp [List.filter]

/-- Witness for `cross_strategies_independent`: a pair where both
cross strategies qualify (costs 0.90 and 0.95 against floor 1¢) and
two separate opportunities are emitted. -/
theorem cross_strategies_independent_witness :
    (detectArbitrageWithOrderbooks 1
        (some ⟨some ⟨none, some (40/100)⟩, some ⟨none, some (50/100)⟩⟩)
        ⟨[(50, 10)], [(55, 10)]⟩).filter (fun o => o.arb_type == "cross_exchange") =
      [{ strategy := "poly_yes_kalshi_no", poly_price := 40/100,
         kalshi_price := (100 - ((50 : ℤ) : ℚ))/100,
         total_cost := 40/100 + (100 - ((50 : ℤ) : ℚ))/100,
         profit_cents := 100 - (40/100 + (100 - ((50 : ℤ) : ℚ))/100) * 100,
         arb_type := "cross_exchange" },
       { strategy := "kalshi_yes_poly_no", poly_price := 50/100,
         kalshi_price := (100 - ((55 : ℤ) : ℚ))/100,
         total_cost := (100 - ((55 : ℤ) : ℚ))/100 + 50/100,
         profit_cents := 100 - ((100 - ((55 : ℤ) : ℚ))/100 + 50/100) * 100,
         arb_type := "cross_exchange" }] := by
  have h := cross_strategies_independent 1 (40/100) (50/100)
    ((100 - ((55 : ℤ) : ℚ))/100) ((100 - ((50 : ℤ) : ℚ))/100)
    (some ⟨some ⟨none, some (40/100)⟩, some ⟨none, some (50/100)⟩⟩)
    ⟨[(50, 10)], [(55, 10)]⟩ rfl rfl
    (by norm_num) (by norm_num) (by norm_num) (by norm_num)
  rw [h, if_pos (by norm_num), if_pos (by norm_num)]
  rfl

/-- Claim C10: a missing ask and an ask of exactly 0.0 are both falsy
for the `all([...])` gate of `detect_arbitrage_with_orderbooks`
line 113, so either condition on any of the four derived asks makes
the pairwise detector return the empty list, suppressing the intra-
and cross-exchange checks for that pair. -/
theorem zero_or_missing_ask_suppresses (minP : ℚ) (polyOb : Option PolyBook) (kOb : KalshiBook)
    (h : pyFalsy (getPolyAsks polyOb).1 ∨ pyFalsy (getPolyAsks polyOb).2 ∨
         pyFalsy (getKalshiAsks kOb).1 ∨ pyFalsy (getKalshiAsks kOb).2) :
    detectArbitrageWithOrderbooks minP polyOb kOb = [] := by
  unfold detectArbitrageWithOrderbooks
  rcases hpq : getPolyAsks polyOb with ⟨p1, p2⟩
  rcases hkq : getKalshiAsks kOb with ⟨k1, k2⟩
  rw [hpq, hkq] at h
  cases p1 <;> cases p2 <;> cases k1 <;> cases k2 <;> simp_all [pyFalsy]

/-- Witness for `zero_or_missing_ask_suppresses`: a Polymarket YES
ask of exactly 0.0 with every other ask present and positive. -/
theorem zero_or_missing_ask_suppresses_witness :
    detectArbitrageWithOrderbooks 1
      (some ⟨some ⟨none, some 0⟩, some ⟨none, some (1/2)⟩⟩) ⟨[(40, 1)], [(50, 1)]⟩ = [] :=
  zero_or_missing_ask_suppresses 1
    (some ⟨some ⟨none, some 0⟩, some ⟨none, some (1/2)⟩⟩) ⟨[(40, 1)], [(50, 1)]⟩
    (Or.inl (Or.inr rfl))

/-- Evaluation of `detect_violations` on a single superset constraint
over two distinctly-named markets. -/
theorem detectViolations_pair (minP t x y : ℚ) (e l : String) (he : e ≠ l) :
    detectViolations minP [LConstraint.mk .superset [e, l] t] [(e, x), (l, y)] =
      if supersetViolated t x y then
        (if minP ≤ (x - y - 3/100) * 100 then
          [Violation.mk "buy_later_yes_buy_earlier_no" (x - y) ((x - y - 3/100) * 100)]
        else [])
      else [] := by
  have hee : (e == e) = true := by simp
  have hle : (l == e) = false := by simp [Ne.symm he]
  have hll : (l == l) = true := by simp
  simp only [detectViolations, List.flatMap_cons, List.flatMap_nil, List.append_nil]
  dsimp only
  simp only [List.lookup, hee, hle, hll]

/-- Claim C7: temporal-superset violation detection is antisymmetric.
For a non-negative tolerance, if `(price(earlier), price(later))` is
a violation (`price(earlier) > price(later) + tolerance`) then the
swapped assignment is not a violation; consequently, whenever
`detect_violations` reports anything on a superset constraint, it
reports nothing once the two markets' prices are swapped. -/
theorem superset_violation_antisymmetric (minP t pe pl : ℚ) (e l : String)
    (ht : 0 ≤ t) (he : e ≠ l) :
    (supersetViolated t pe pl = true → supersetViolated t pl pe = false) ∧
    (detectViolations minP [LConstraint.mk .superset [e, l] t] [(e, pe), (l, pl)] ≠ [] →
      detectViolations minP [LConstraint.mk .superset [e, l] t] [(e, pl), (l, pe)] = []) := by
  have hanti : supersetViolated t pe pl = true → supersetViolated t pl pe = false := by
    intro hv
    simp only [supersetViolated, decide_eq_true_eq] at hv
    simp only [supersetViolated, decide_eq_false_iff_not, not_lt]
    linarith
  refine ⟨hanti, ?_⟩
  intro hne
  rw [detectViolations_pair minP t pe pl e l he] at hne
  rw [detectViolations_pair minP t pl pe e l he]
  by_cases hv : supersetViolated t pe pl = true
  · rw [hanti hv]
    simp
  · rw [if_neg hv] at hne
    exact absurd rfl hne

/-- Witness for `superset_violation_antisymmetric` at tolerance 0.02
and prices 0.60 / 0.55. -/
theorem superset_violation_antisymmetric_witness :
    (supersetViolated (2/100) (60/100) (55/100) = true →
      supersetViolated (2/100) (55/100) (60/100) = false) ∧
    (detectViolations 1 [LConstraint.mk .superset ["e", "l"] (2/100)]
        [("e", 60/100), ("l", 55/100)] ≠ [] →
      detectViolations 1 [LConstraint.mk .superset ["e", "l"] (2/100)]
        [("e", 55/100), ("l", 60/100)] = []) :=
  superset_violation_antisymmetric 1 (2/100) (60/100) (55/100) "e" "l"
    (by norm_num) (by decide)

/-- Claim C8: the crypto spot-lag evaluator is dormant outside the
proximity band.  For any market whose subtitle parses to direction
above or below with threshold `t > 0`, and any spot price `s` with
`|s - t| / t > 0.05`, the evaluator returns no opportunity regardless
of the market's YES price. -/
theorem spot_lag_proximity_dormant (mkt : CryptoMarket) (t spot y : ℚ)
    (hp : parseKalshiSubtitle mkt.subtitle = some (.above t) ∨
          parseKalshiSubtitle mkt.subtitle = some (.below t))
    (ht : 0 < t) (hfar : 5 / 100 < |spot - t| / t) :
    evaluateCryptoKalshi mkt spot y = none := by
  have hnear : isNearThreshold spot t = false := by
    rw [isNearThreshold, if_neg (ne_of_gt ht)]
    simp only [decide_eq_false_iff_not, not_le]
    exact hfar
  unfold evaluateCryptoKalshi
  cases hc : coinFromTicker mkt.ticker
  · rfl
  rcases hp with h | h <;> rw [h] <;> dsimp only <;> rw [hnear] <;> simp

/-- Witness for `spot_lag_proximity_dormant`: subtitle "105 or above"
with spot 200 (about 90% above the threshold) and a YES ask of 0.01
that would otherwise scream BUY YES. -/
theorem spot_lag_proximity_dormant_witness :
    evaluateCryptoKalshi ⟨"KXBTC-X", "105 or above", "t"⟩ 200 (1/100) = none :=
  spot_lag_proximity_dormant ⟨"KXBTC-X", "105 or above", "t"⟩ 105 200 (1/100)
    (Or.inl (by decide)) (by norm_num) (by norm_num)

/-- `valueUsed` returning `false` means no entry of the matched table
carries the value. -/
theorem valueUsed_false_iff (m : StrDict) (v : String) :
    valueUsed m v = false ↔ ∀ p ∈ m, p.2 ≠ v := by
  simp [valueUsed, List.any_eq_false]

/-- The matching inner loop only returns tickers that are not yet
used as a value of the matched table — the `continue` at
market_matcher.py lines 157-158 and 201-202. -/
theorem firstUnusedMatch_unused (matched kalshiTitles : StrDict) (polyTitle : String)
    (fm : String → String → Bool) (t : String)
    (h : firstUnusedMatch matched kalshiTitles polyTitle fm = some t) :
    valueUsed matched t = false := by
  induction kalshiTitles with
  | nil => simp [firstUnusedMatch] at h
  | cons p rest ih =>
    obtain ⟨ticker, title⟩ := p
    rw [firstUnusedMatch] at h
    split_ifs at h with h1 h2
    · exact ih h
    · obtain rfl := Option.some.inj h
      simpa using h1
    · exact ih h

/-- Every entry of `dictInsert m k v` is either the new pair `(k, v)`
or an untouched old pair whose key differs from `k`. -/
theorem mem_dictInsert (m : StrDict) (k v : String) (p : String × String)
    (hp : p ∈ dictInsert m k v) : p = (k, v) ∨ (p ∈ m ∧ p.1 ≠ k) := by
  unfold dictInsert at hp
  split_ifs at hp with hk
  · simp only [List.mem_map] at hp
    obtain ⟨q, hq, he⟩ := hp
    by_cases c : (q.1 == k) = true
    · rw [if_pos c] at he
      exact Or.inl he.symm
    · rw [if_neg c] at he
      subst he
      exact Or.inr ⟨hq, by simpa using c⟩
  · rcases List.mem_append.1 hp with h | h
    · have hkeys : ∀ x, (k, x) ∉ m := by
        simpa [List.any_eq_false] using hk
      refine Or.inr ⟨h, fun heq => hkeys p.2 ?_⟩
      rw [← heq, Prod.mk.eta]
      exact h
    · exact Or.inl (by simpa using h)

/-- Inserting a fresh (unused) value into a value-injective dict
keeps it value-injective. -/
theorem dictInsert_valueInjective (m : StrDict) (k v : String)
    (hm : valueInjective m) (hv : valueUsed m v = false) :
    valueInjective (dictInsert m k v) := by
  have hfresh : ∀ p ∈ m, p.2 ≠ v := (valueUsed_false_iff m v).1 hv
  intro k1 k2 w h1 h2
  rcases mem_dictInsert m k v _ h1 with he1 | ⟨hm1, -⟩ <;>
    rcases mem_dictInsert m k v _ h2 with he2 | ⟨hm2, -⟩
  · injection he1 with ha1 hb1
    injection he2 with ha2 hb2
    rw [ha1, ha2]
  · injection he1 with ha1 hb1
    exact absurd hb1 (hfresh _ hm2)
  · injection he2 with ha2 hb2
    exact absurd hb2 (hfresh _ hm1)
  · exact hm k1 k2 w hm1 hm2

/-- `match_new_market` preserves value-injectivity of the matched
table: a cascade success stores a ticker the inner loop verified
unused. -/
theorem matchNewMarket_preserves (db : MatchDB) (kt : StrDict)
    (fm : String → String → Bool) (pid pt : String)
    (hm : valueInjective db.matched) :
    valueInjective (matchNewMarket db kt fm pid pt).1.matched := by
  unfold matchNewMarket
  cases hl : db.matched.lookup pid
  · dsimp only
    split_ifs with hmem
    · exact hm
    · cases hf : firstUnusedMatch db.matched kt pt fm
      · exact hm
      · dsimp only
        exact dictInsert_valueInjective _ _ _ hm
          (firstUnusedMatch_unused _ _ _ _ _ hf)
  · exact hm

/-- One `rematch_unmatched` iteration preserves value-injectivity:
the inner loop re-checks used values against the current table. -/
theorem rematchStep_preserves (pt kt : StrDict) (fm : String → String → Bool)
    (db : MatchDB) (pid : String)
    (hm : valueInjective db.matched) :
    valueInjective (rematchStep pt kt fm db pid).matched := by
  unfold rematchStep
  split
  · exact hm
  · cases hf : firstUnusedMatch db.matched kt _ fm
    · exact hm
    · dsimp only
      exact dictInsert_valueInjective _ _ _ hm
        (firstUnusedMatch_unused _ _ _ _ _ hf)

/-- The sweep over all unmatched ids preserves value-injectivity. -/
theorem foldl_rematchStep_preserves (pt kt : StrDict) (fm : String → String → Bool) :
    ∀ (ids : List String) (db : MatchDB), valueInjective db.matched →
      valueInjective (ids.foldl (rematchStep pt kt fm) db).matched := by
  intro ids
  induction ids with
  | nil => exact fun db hm => hm
  | cons x xs ih =>
    intro db hm
    exact ih _ (rematchStep_preserves pt kt fm db x hm)

/-- Claim C6: the matched table's value-injectivity (no two
Polymarket ids map to the same Kalshi ticker) is preserved by both
`match_new_market` and `rematch_unmatched`, because each skips Kalshi
tickers already used as a value before running the cascade. -/
theorem match_cache_value_injective (db : MatchDB) (polyTitles kalshiTitles : StrDict)
    (fm : String → String → Bool) (polyId polyTitle : String)
    (hm : valueInjective db.matched) :
    valueInjective (matchNewMarket db kalshiTitles fm polyId polyTitle).1.matched ∧
    valueInjective (rematchUnmatched db polyTitles kalshiTitles fm).matched := by
  refine ⟨matchNewMarket_preserves db kalshiTitles fm polyId polyTitle hm, ?_⟩
  unfold rematchUnmatched
  exact foldl_rematchStep_preserves polyTitles kalshiTitles fm db.unmatched_poly db hm

/-- Witness for `match_cache_value_injective`: a one-entry table, a
fuzzy cascade that accepts everything, one new id and one unmatched
id to re-match. -/
theorem match_cache_value_injective_witness :
    valueInjective (matchNewMarket (MatchDB.mk [("p0", "T0")] ["p1"])
      [("T0", "x"), ("T1", "y")] (fun _ _ => true) "p2" "q").1.matched ∧
    valueInjective (rematchUnmatched (MatchDB.mk [("p0", "T0")] ["p1"])
      [("p1", "ti")] [("T0", "x"), ("T1", "y")] (fun _ _ => true)).matched := by
  refine match_cache_value_injective (MatchDB.mk [("p0", "T0")] ["p1"])
    [("p1", "ti")] [("T0", "x"), ("T1", "y")] (fun _ _ => true) "p2" "q" ?_
  intro k1 k2 v h1 h2
  rw [List.mem_singleton] at h1 h2
  injection h1 with ha1 _
  injection h2 with ha2 _
  rw [ha1, ha2]
